import Mathlib

/-!
Verification of the `finalize_cname` CoreDNS plugin
(repository hrko/coredns-finalize-cname).

The development shallowly embeds the two Go source variants of the plugin:

* `src/unnamed/part_000` — `ServeDNS` written as a `for` loop;
* `src/finalize.go`      — `ServeDNS` written with `goto Redo` / `goto Out`;

together with the shared helper `findLastTarget` and the configuration
parser from `src/setup.go`.  DNS records are modelled by their owner name,
record type number and (for CNAME records) their target name; Go maps used
by the source are modelled by association lists whose insertion overwrites
an existing key, matching Go's `m[k] = v` semantics.  Upstream lookups,
the response writer and the plugin chain are external collaborators and
are supplied as oracle parameters.
-/

namespace CorednsFinalizeCname

/-- `dns.TypeCNAME` from miekg/dns. -/
def typeCNAME : Nat := 5

/-- `dns.TypeA` from miekg/dns. -/
def typeA : Nat := 1

/-- `dns.RcodeSuccess`. -/
def RcodeSuccess : Nat := 0

/-- `dns.RcodeServerFailure`. -/
def RcodeServerFailure : Nat := 2

/-- A DNS resource record (`dns.RR`).  `name` and `rrtype` model
`rr.Header().Name` and `rr.Header().Rrtype`; `target` models the
`Target` field of a `*dns.CNAME` (meaningful only when
`rrtype = typeCNAME`); `payload` stands for the data of any other
record type (for example the address of an A record). -/
structure RR where
  name : String
  rrtype : Nat
  target : String
  payload : String
deriving DecidableEq, Repr

/-- The question of a DNS message (`response.Question[0]`); the code
always looks at index 0, so a single question is modelled. -/
structure Question where
  qname : String
  qtype : Nat
deriving DecidableEq, Repr

/-- A DNS message (`*dns.Msg`) restricted to the parts the plugin reads:
the first question and the answer section. -/
structure Msg where
  question : Question
  answer : List RR
deriving DecidableEq, Repr

/-- Insertion into the `nameToTarget` Go map: assigning to an existing
key overwrites its value, otherwise a new binding is appended. -/
def insertAssoc (m : List (String × String)) (k v : String) : List (String × String) :=
  if m.any (fun p => p.1 == k) then
    m.map (fun p => if p.1 == k then (k, v) else p)
  else m ++ [(k, v)]

/-- The map-building loop of `findLastTarget`:
`for _, rr := range rrs { if rr.Header().Rrtype == dns.TypeCNAME {
nameToTarget[rr.Header().Name] = cname.Target } }`. -/
def buildNameToTarget (rrs : List RR) : List (String × String) :=
  rrs.foldl (fun m rr => if rr.rrtype == typeCNAME then insertAssoc m rr.name rr.target else m) []

/-- Go map read `target, ok := nameToTarget[nextName]`. -/
def lookupAssoc (m : List (String × String)) (k : String) : Option String :=
  (m.find? (fun p => p.1 == k)).map (fun p => p.2)

/-- The three error values `findLastTarget` can produce, identified by
their `fmt.Errorf` message. -/
inductive FTErr where
  /-- `no CNAME records found` (empty mapping). -/
  | noCnameRecords
  /-- `no CNAME records found for %s` (the starting name has no entry). -/
  | noCnameForQname
  /-- `circular reference found in CNAME chain`. -/
  | circularReference
deriving DecidableEq, Repr

/-- The chain-following `for` loop of `findLastTarget`.  `depth` is the
Go variable of the same name; the loop terminates because `depth`
strictly increases and the code errors out once `depth > len(nameToTarget)`. -/
def followChain (m : List (String × String)) (s : String) (depth : Nat) : Except FTErr String :=
  match lookupAssoc m s with
  | none => if depth == 0 then Except.error FTErr.noCnameForQname else Except.ok s
  | some target =>
    if h : m.length < depth + 1 then Except.error FTErr.circularReference
    else followChain m target (depth + 1)
termination_by m.length + 1 - depth
decreasing_by omega

/-- `findLastTarget` from `src/unnamed/part_000` lines 161–191 (and the
textually identical function in `src/finalize.go` lines 166–196, whose
error strings differ only in formatting). -/
def findLastTarget (rrs : List RR) (qname : String) : Except FTErr String :=
  let m := buildNameToTarget rrs
  if m.length == 0 then Except.error FTErr.noCnameRecords
  else followChain m qname 0

/-- `iterN m s n` follows `n` mapping edges starting from `s`;
`none` when some edge is missing.  Used to state when the chain loop of
`findLastTarget` runs out of its hop budget. -/
def iterN (m : List (String × String)) (s : String) : Nat → Option String
  | 0 => some s
  | n + 1 =>
    match lookupAssoc m s with
    | none => none
    | some t => iterN m t n

/-- The plugin's prometheus counters (src/metrics.go), as the number of
`Inc()` calls made while handling one request. -/
structure Counters where
  request : Nat := 0
  circularReference : Nat := 0
  danglingCName : Nat := 0
  maxLookupReached : Nat := 0
  upstreamError : Nat := 0
deriving DecidableEq, Repr

/-- Ghost label recording through which control path `ServeDNS` returned;
each constructor corresponds to one `return` / `goto Out` site. -/
inductive Exit where
  /-- `plugin.NextOrFailure` returned an error. -/
  | nextError
  /-- `nw.Msg == nil`: no answer received from the chain. -/
  | noResponse
  /-- skip: the question type is CNAME. -/
  | skipCnameQtype
  /-- skip: the answer section is empty. -/
  | skipEmptyAnswer
  /-- skip: some answer record is not a CNAME. -/
  | skipFinalized
  /-- `findLastTarget` returned an error (initial call or per-hop call). -/
  | chainError
  /-- budget abort: `maxLookup > 0 && lookupCnt >= maxLookup`. -/
  | maxLookup
  /-- visited-set abort: the target was already processed. -/
  | circular
  /-- `s.upstream.Lookup` returned an error. -/
  | upstreamErr
  /-- the upstream answer contained zero records. -/
  | dangling
  /-- a non-CNAME record arrived: the accumulator is committed. -/
  | success
deriving DecidableEq, Repr

/-- Observable result of one `ServeDNS` call.  `written` is the message
handed to `w.WriteMsg` (`none` when `ServeDNS` returned before writing),
`rcode`/`isErr` are the Go return values (`isErr` records whether the
returned `error` was non-nil), `lookups` lists the arguments of every
`s.upstream.Lookup` call in order, and `lookupCnt` is the final value of
the Go variable of that name. -/
structure Outcome where
  written : Option Msg
  rcode : Nat
  isErr : Bool
  counters : Counters
  lookups : List (String × Nat)
  lookupCnt : Nat
  exit : Exit
deriving DecidableEq, Repr

/-- `writeResponse` from `src/unnamed/part_000` lines 144–150, also the
`Out:` epilogue of `src/finalize.go`: `w.WriteMsg(response)`; on write
failure return `(dns.RcodeServerFailure, err)`, else `(dns.RcodeSuccess, nil)`.
`wOk` is the oracle telling whether the write succeeds. -/
def writeResponse (wOk : Bool) (response : Msg) (c : Counters) (lks : List (String × Nat))
    (cnt : Nat) (e : Exit) : Outcome :=
  if wOk then
    { written := some response, rcode := RcodeSuccess, isErr := false,
      counters := c, lookups := lks, lookupCnt := cnt, exit := e }
  else
    { written := some response, rcode := RcodeServerFailure, isErr := true,
      counters := c, lookups := lks, lookupCnt := cnt, exit := e }

/-- The resolution loop shared verbatim by both `ServeDNS` variants
(`for { ... }` in part_000 lines 93–142, `Redo: ... goto Redo` in
finalize.go lines 97–146).  Arguments track the Go locals
`lookupedNames`, `lookupCnt`, `rrs`, `targetName`; `up i` is the oracle
result of the `i`-th `s.upstream.Lookup` call (`none` models an error),
`qt` is `state.QType()`.  `fuel` bounds the number of iterations the
model unfolds; `none` means the bound was hit (with an unlimited budget
and an adversarial upstream the Go loop itself need not terminate). -/
def resolveLoop (ml : Int) (up : Nat → Option Msg) (wOk : Bool) (resp : Msg) (qt : Nat) :
    Nat → List String → Nat → List RR → String → Counters → List (String × Nat) → Option Outcome
  | 0, _, _, _, _, _, _ => none
  | fuel + 1, ln, cnt, rrs, tn, c, lks =>
    if 0 < ml ∧ ml ≤ (cnt : Int) then
      some (writeResponse wOk resp
        { c with maxLookupReached := c.maxLookupReached + 1 } lks cnt Exit.maxLookup)
    else if tn ∈ ln then
      some (writeResponse wOk resp
        { c with circularReference := c.circularReference + 1 } lks (cnt + 1) Exit.circular)
    else
      match up lks.length with
      | none =>
        some (writeResponse wOk resp
          { c with upstreamError := c.upstreamError + 1 } (lks ++ [(tn, qt)]) (cnt + 1)
          Exit.upstreamErr)
      | some lookupMsg =>
        if lookupMsg.answer.isEmpty then
          some (writeResponse wOk resp
            { c with danglingCName := c.danglingCName + 1 } (lks ++ [(tn, qt)]) (cnt + 1)
            Exit.dangling)
        else if lookupMsg.answer.any (fun rr => rr.rrtype != typeCNAME) then
          some (writeResponse wOk { resp with answer := rrs ++ lookupMsg.answer }
            c (lks ++ [(tn, qt)]) (cnt + 1) Exit.success)
        else
          match findLastTarget lookupMsg.answer tn with
          | Except.error _ =>
            some (writeResponse wOk resp c (lks ++ [(tn, qt)]) (cnt + 1) Exit.chainError)
          | Except.ok tn2 =>
            resolveLoop ml up wOk resp qt fuel (ln ++ [tn]) (cnt + 1)
              (rrs ++ lookupMsg.answer) tn2 c (lks ++ [(tn, qt)])

/-- Common shape of both `ServeDNS` variants.  `initRrs` builds the
working copy `rrs` from `response.Answer`; the two variants differ only
there.  `nextErr`/`nextRcode` model the result of `plugin.NextOrFailure`,
`resp?` models `nw.Msg` (`none` = nil). -/
def serveDNSWith (initRrs : List RR → List RR) (ml : Int) (up : Nat → Option Msg) (wOk : Bool)
    (nextErr : Bool) (nextRcode : Nat) (resp? : Option Msg) (fuel : Nat) : Option Outcome :=
  if nextErr then
    some { written := none, rcode := nextRcode, isErr := true,
           counters := {}, lookups := [], lookupCnt := 0, exit := Exit.nextError }
  else
    match resp? with
    | none =>
      some { written := none, rcode := RcodeServerFailure, isErr := true,
             counters := {}, lookups := [], lookupCnt := 0, exit := Exit.noResponse }
    | some response =>
      if response.question.qtype == typeCNAME then
        some (writeResponse wOk response {} [] 0 Exit.skipCnameQtype)
      else if response.answer.isEmpty then
        some (writeResponse wOk response {} [] 0 Exit.skipEmptyAnswer)
      else if response.answer.any (fun rr => rr.rrtype != typeCNAME) then
        some (writeResponse wOk response {} [] 0 Exit.skipFinalized)
      else
        match findLastTarget (initRrs response.answer) response.question.qname with
        | Except.error _ =>
          some (writeResponse wOk response { request := 1 } [] 0 Exit.chainError)
        | Except.ok tn =>
          resolveLoop ml up wOk response response.question.qtype fuel
            [] 0 (initRrs response.answer) tn { request := 1 } []

/-- `ServeDNS` of `src/unnamed/part_000` (loop variant).  Its working
copy is a full copy of the answer section:
`rrs := make([]dns.RR, len(response.Answer)); copy(rrs, response.Answer)`. -/
def serveDNS_loop : Int → (Nat → Option Msg) → Bool → Bool → Nat → Option Msg → Nat → Option Outcome :=
  serveDNSWith (fun ans => ans)

/-- `ServeDNS` of `src/finalize.go` (goto variant).  Its working copy is
built by `rrs := make([]dns.RR, 0, len(response.Answer)); copy(rrs, response.Answer)`:
the destination slice has length zero, so `copy` copies zero elements and
the working copy is the empty slice. -/
def serveDNS_goto : Int → (Nat → Option Msg) → Bool → Bool → Nat → Option Msg → Nat → Option Outcome :=
  serveDNSWith (fun _ => [])

/-- Decimal value of an ASCII digit character, `none` otherwise. -/
def digitVal (c : Char) : Option Nat :=
  if '0' ≤ c ∧ c ≤ '9' then some (c.toNat - '0'.toNat) else none

/-- Value of a non-empty all-digit character list, `none` otherwise. -/
def digitsVal (ds : List Char) : Option Nat :=
  if ds.isEmpty then none
  else ds.foldl (fun acc? c =>
    match acc?, digitVal c with
    | some acc, some d => some (acc * 10 + d)
    | _, _ => none) (some 0)

/-- Models `strconv.Atoi` from `src/setup.go`: an optional sign followed
by at least one decimal digit; anything else is an error (`none`).  The
machine-word range check of the Go function is not modelled. -/
def atoi (s : String) : Option Int :=
  match s.data with
  | '-' :: ds => (digitsVal ds).map (fun n => -(n : Int))
  | '+' :: ds => (digitsVal ds).map (fun n => (n : Int))
  | ds => (digitsVal ds).map (fun n => (n : Int))

/-- ASCII lower-casing of one character. -/
def asciiLower (c : Char) : Char :=
  if 'A' ≤ c ∧ c ≤ 'Z' then Char.ofNat (c.toNat + 32) else c

/-- Models `strings.EqualFold` (restricted to ASCII folding; the setup
code compares against the ASCII literal `"max_lookup"`). -/
def equalFold (a b : String) : Bool :=
  a.data.map asciiLower == b.data.map asciiLower

/-- The configuration the parser produces: the `Finalize` struct
restricted to its `maxLookup` field (the plugin chain pointer and the
upstream handle are external collaborators). -/
structure FinalizeCfg where
  maxLookup : Int
deriving DecidableEq, Repr

/-- `New()` from the source: `maxLookup` defaults to 10. -/
def newFinalize : FinalizeCfg := ⟨10⟩

/-- The error cases of `parse` in `src/setup.go`, identified by their
return sites. -/
inductive ParseErr where
  /-- `c.ArgErr()` (one argument, or three or more arguments). -/
  | argErr
  /-- `strconv.Atoi` failed. -/
  | atoiErr
  /-- `max_lookup parameter must be greater than 0`. -/
  | nonPositive
  /-- `unsupported parameter %s for upstream setting`. -/
  | unsupported
deriving DecidableEq, Repr

/-- The `for c.Next()` loop of `parse` (src/setup.go lines 33–63).  Each
element of `blocks` is the `c.RemainingArgs()` of one directive
occurrence; `acc` is the `Finalize` under construction. -/
def parseBlocks : List (List String) → FinalizeCfg → Except ParseErr FinalizeCfg
  | [], acc => Except.ok acc
  | args :: rest, acc =>
    match args with
    | [] => parseBlocks rest acc
    | [_] => Except.error ParseErr.argErr
    | [a, b] =>
      if equalFold "max_lookup" a then
        match atoi b with
        | none => Except.error ParseErr.atoiErr
        | some n =>
          if n ≤ 0 then Except.error ParseErr.nonPositive
          else parseBlocks rest { acc with maxLookup := n }
      else Except.error ParseErr.unsupported
    | _ => Except.error ParseErr.argErr

/-- `parse` from `src/setup.go`: start from `New()` and fold the
configuration blocks. -/
def parse (blocks : List (List String)) : Except ParseErr FinalizeCfg :=
  parseBlocks blocks newFinalize

/-! Concrete inputs used by the per-claim evaluation theorems and
witnesses.  Record types: `typeCNAME` is the alias type, `typeA` a
terminal type. -/

/-- Captured response with answer `[CNAME a. -> b.]`. -/
def respC1 : Msg := ⟨⟨"a.", typeA⟩, [⟨"a.", typeCNAME, "b.", ""⟩]⟩

/-- Upstream that always answers `[A b. 1.2.3.4]`. -/
def upC1 : Nat → Option Msg := fun _ => some ⟨⟨"b.", typeA⟩, [⟨"b.", typeA, "", "1.2.3.4"⟩]⟩

/-- Captured response with answer `[CNAME x. -> y.]`. -/
def respC2 : Msg := ⟨⟨"x.", typeA⟩, [⟨"x.", typeCNAME, "y.", ""⟩]⟩

/-- Upstream that always answers `[A y. 5.6.7.8]`. -/
def upC2 : Nat → Option Msg := fun _ => some ⟨⟨"y.", typeA⟩, [⟨"y.", typeA, "", "5.6.7.8"⟩]⟩

/-- Record set with two alias records sharing the owner name `a.`. -/
def rrsC3cex : List RR := [⟨"a.", typeCNAME, "b.", ""⟩, ⟨"a.", typeCNAME, "d.", ""⟩]

/-- Record set holding the 2-hop chain `a. -> b. -> c.`. -/
def rrsC3w : List RR := [⟨"a.", typeCNAME, "b.", ""⟩, ⟨"b.", typeCNAME, "c.", ""⟩]

/-- The node sequence of that chain. -/
def nnC3 : Nat → String := fun i => if i == 0 then "a." else if i == 1 then "b." else "c."

/-- Captured response with answer `[CNAME a. -> b.]` (budget example). -/
def respC5 : Msg := ⟨⟨"a.", typeA⟩, [⟨"a.", typeCNAME, "b.", ""⟩]⟩

/-- Upstream that always answers `[CNAME b. -> c.]`, so the chain needs
a second hop. -/
def upC5 : Nat → Option Msg := fun _ => some ⟨⟨"b.", typeA⟩, [⟨"b.", typeCNAME, "c.", ""⟩]⟩

/-- Expected outcome for `respC5` with budget 1: abort on the second
iteration with the original response. -/
def outC5 : Outcome :=
  { written := some respC5, rcode := RcodeSuccess, isErr := false,
    counters := { request := 1, maxLookupReached := 1 },
    lookups := [("b.", typeA)], lookupCnt := 1, exit := Exit.maxLookup }

/-- Captured response with answer `[CNAME a. -> b.]` (dangling example). -/
def respC6 : Msg := ⟨⟨"a.", typeA⟩, [⟨"a.", typeCNAME, "b.", ""⟩]⟩

/-- Upstream that answers with zero records. -/
def upC6 : Nat → Option Msg := fun _ => some ⟨⟨"b.", typeA⟩, []⟩

/-- Expected outcome for `respC6`: dangling-alias abort with the
original response. -/
def outC6 : Outcome :=
  { written := some respC6, rcode := RcodeSuccess, isErr := false,
    counters := { request := 1, danglingCName := 1 },
    lookups := [("b.", typeA)], lookupCnt := 1, exit := Exit.dangling }

/-- Captured response whose question type is the alias type itself. -/
def respC7 : Msg := ⟨⟨"q.", typeCNAME⟩, [⟨"q.", typeCNAME, "t.", ""⟩]⟩

/-- Expected outcome for `respC7`: skipped, written unchanged. -/
def outC7 : Outcome :=
  { written := some respC7, rcode := RcodeSuccess, isErr := false,
    counters := {}, lookups := [], lookupCnt := 0, exit := Exit.skipCnameQtype }

/-- Captured response with answer `[CNAME a. -> b.]` (cycle example). -/
def respC8 : Msg := ⟨⟨"a.", typeA⟩, [⟨"a.", typeCNAME, "b.", ""⟩]⟩

/-- Upstream whose first answer is `[CNAME b. -> a.]` and whose later
answers are `[CNAME a. -> b.]`, creating a cycle across hops. -/
def upC8 : Nat → Option Msg := fun i =>
  if i == 0 then some ⟨⟨"b.", typeA⟩, [⟨"b.", typeCNAME, "a.", ""⟩]⟩
  else some ⟨⟨"a.", typeA⟩, [⟨"a.", typeCNAME, "b.", ""⟩]⟩

/-- Expected outcome for `respC8`/`upC8`: cycle abort on the third
iteration, after two upstream calls but with `lookupCnt = 3`. -/
def outC8 : Outcome :=
  { written := some respC8, rcode := RcodeSuccess, isErr := false,
    counters := { request := 1, circularReference := 1 },
    lookups := [("b.", typeA), ("a.", typeA)], lookupCnt := 3, exit := Exit.circular }

/-- A terminal (non-alias) record. -/
def rrC10 : RR := ⟨"p.", typeA, "", "9.9.9.9"⟩

/-- Captured response whose answer holds an unresolved alias record and
one terminal record. -/
def respC10 : Msg := ⟨⟨"m.", typeA⟩, [⟨"m.", typeCNAME, "n.", ""⟩, rrC10]⟩

/-- Expected outcome for `respC10`: skipped as already finalized. -/
def outC10 : Outcome :=
  { written := some respC10, rcode := RcodeSuccess, isErr := false,
    counters := {}, lookups := [], lookupCnt := 0, exit := Exit.skipFinalized }

/-! Helper lemmas about `writeResponse` fields and the resolution loop. -/

@[simp] theorem writeResponse_written (wOk : Bool) (resp : Msg) (c : Counters)
    (lks : List (String × Nat)) (cnt : Nat) (e : Exit) :
    (writeResponse wOk resp c lks cnt e).written = some resp := by
  unfold writeResponse; split <;> rfl

@[simp] theorem writeResponse_counters (wOk : Bool) (resp : Msg) (c : Counters)
    (lks : List (String × Nat)) (cnt : Nat) (e : Exit) :
    (writeResponse wOk resp c lks cnt e).counters = c := by
  unfold writeResponse; split <;> rfl

@[simp] theorem writeResponse_lookups (wOk : Bool) (resp : Msg) (c : Counters)
    (lks : List (String × Nat)) (cnt : Nat) (e : Exit) :
    (writeResponse wOk resp c lks cnt e).lookups = lks := by
  unfold writeResponse; split <;> rfl

@[simp] theorem writeResponse_lookupCnt (wOk : Bool) (resp : Msg) (c : Counters)
    (lks : List (String × Nat)) (cnt : Nat) (e : Exit) :
    (writeResponse wOk resp c lks cnt e).lookupCnt = cnt := by
  unfold writeResponse; split <;> rfl

@[simp] theorem writeResponse_exit (wOk : Bool) (resp : Msg) (c : Counters)
    (lks : List (String × Nat)) (cnt : Nat) (e : Exit) :
    (writeResponse wOk resp c lks cnt e).exit = e := by
  unfold writeResponse; split <;> rfl

@[simp] theorem writeResponse_rcode_true (resp : Msg) (c : Counters)
    (lks : List (String × Nat)) (cnt : Nat) (e : Exit) :
    (writeResponse true resp c lks cnt e).rcode = RcodeSuccess := rfl

@[simp] theorem writeResponse_isErr_true (resp : Msg) (c : Counters)
    (lks : List (String × Nat)) (cnt : Nat) (e : Exit) :
    (writeResponse true resp c lks cnt e).isErr = false := rfl

@[simp] theorem writeResponse_rcode_false (resp : Msg) (c : Counters)
    (lks : List (String × Nat)) (cnt : Nat) (e : Exit) :
    (writeResponse false resp c lks cnt e).rcode = RcodeServerFailure := rfl

@[simp] theorem writeResponse_isErr_false (resp : Msg) (c : Counters)
    (lks : List (String × Nat)) (cnt : Nat) (e : Exit) :
    (writeResponse false resp c lks cnt e).isErr = true := rfl

/-- Exhaustive invariant of the resolution loop, by induction on the
fuel: which exits it can produce, which message it writes, how the
return code depends on the write oracle, how each counter moves, and
how the final `lookupCnt` relates to the number of upstream calls. -/
theorem resolveLoop_spec (ml : Int) (up : Nat → Option Msg) (wOk : Bool) (resp : Msg) (qt : Nat) :
    ∀ fuel ln cnt rrs tn c lks out,
      resolveLoop ml up wOk resp qt fuel ln cnt rrs tn c lks = some out →
      (out.exit = Exit.maxLookup ∨ out.exit = Exit.circular ∨ out.exit = Exit.upstreamErr ∨
        out.exit = Exit.dangling ∨ out.exit = Exit.chainError ∨ out.exit = Exit.success) ∧
      (out.exit ≠ Exit.success → out.written = some resp) ∧
      (out.exit = Exit.success → ∃ ans, out.written = some { resp with answer := ans }) ∧
      (wOk = true → out.rcode = RcodeSuccess ∧ out.isErr = false) ∧
      (wOk = false → out.rcode = RcodeServerFailure ∧ out.isErr = true) ∧
      out.counters.request = c.request ∧
      out.counters.maxLookupReached
        = c.maxLookupReached + (if out.exit = Exit.maxLookup then 1 else 0) ∧
      out.counters.circularReference
        = c.circularReference + (if out.exit = Exit.circular then 1 else 0) ∧
      out.counters.danglingCName
        = c.danglingCName + (if out.exit = Exit.dangling then 1 else 0) ∧
      out.counters.upstreamError
        = c.upstreamError + (if out.exit = Exit.upstreamErr then 1 else 0) ∧
      out.lookupCnt + lks.length
        = cnt + out.lookups.length + (if out.exit = Exit.circular then 1 else 0) ∧
      (ml ≤ 0 → out.exit ≠ Exit.maxLookup) := by
  intro fuel
  induction fuel with
  | zero =>
    intro ln cnt rrs tn c lks out h
    simp [resolveLoop] at h
  | succ n ih =>
    intro ln cnt rrs tn c lks out h
    simp only [resolveLoop] at h
    split at h
    · injection h with h
      subst h
      cases wOk <;> simp <;> omega
    · split at h
      · injection h with h
        subst h
        cases wOk <;> simp <;> omega
      · split at h
        · injection h with h
          subst h
          cases wOk <;> simp <;> omega
        · rename_i lookupMsg hup
          split at h
          · injection h with h
            subst h
            cases wOk <;> simp <;> omega
          · split at h
            · injection h with h
              subst h
              cases wOk <;> simp <;> omega
            · split at h
              · injection h with h
                subst h
                cases wOk <;> simp <;> omega
              · have H := ih _ _ _ _ _ _ _ h
                obtain ⟨h1, h2, h3, h4, h5, h6, h7, h8, h9, h10, h11, h12⟩ := H
                refine ⟨h1, h2, h3, h4, h5, h6, h7, h8, h9, h10, ?_, h12⟩
                simp [List.length_append] at h11
                omega

/-- Lift of `resolveLoop_spec` through the shared `ServeDNS` shape, for
runs where the plugin chain succeeded and produced a response. -/
theorem serveDNSWith_cases (initRrs : List RR → List RR) (ml : Int) (up : Nat → Option Msg)
    (wOk : Bool) (nr fuel : Nat) (resp : Msg) (out : Outcome)
    (h : serveDNSWith initRrs ml up wOk false nr (some resp) fuel = some out) :
    (out.exit ≠ Exit.success → out.written = some resp) ∧
    (out.exit = Exit.success → ∃ ans, out.written = some { resp with answer := ans }) ∧
    (wOk = true → out.rcode = RcodeSuccess ∧ out.isErr = false) ∧
    (wOk = false → out.rcode = RcodeServerFailure ∧ out.isErr = true) ∧
    out.counters.request ≤ 1 ∧
    (out.counters.maxLookupReached = if out.exit = Exit.maxLookup then 1 else 0) ∧
    (out.counters.circularReference = if out.exit = Exit.circular then 1 else 0) ∧
    (out.counters.danglingCName = if out.exit = Exit.dangling then 1 else 0) ∧
    (out.counters.upstreamError = if out.exit = Exit.upstreamErr then 1 else 0) ∧
    (out.lookupCnt = out.lookups.length + if out.exit = Exit.circular then 1 else 0) ∧
    (ml ≤ 0 → out.exit ≠ Exit.maxLookup) ∧
    ((out.exit = Exit.chainError ∨ out.exit = Exit.maxLookup ∨ out.exit = Exit.circular ∨
       out.exit = Exit.upstreamErr ∨ out.exit = Exit.dangling) → out.counters.request = 1) ∧
    ((out.exit = Exit.skipCnameQtype ∨ out.exit = Exit.skipEmptyAnswer ∨
       out.exit = Exit.skipFinalized) →
       out.counters = {} ∧ out.lookups = [] ∧ out.lookupCnt = 0) := by
  simp only [serveDNSWith, Bool.false_eq_true, if_false] at h
  split at h
  · injection h with h
    subst h
    cases wOk <;> simp
  · split at h
    · injection h with h
      subst h
      cases wOk <;> simp
    · split at h
      · injection h with h
        subst h
        cases wOk <;> simp
      · split at h
        · injection h with h
          subst h
          cases wOk <;> simp
        · have H := resolveLoop_spec ml up wOk resp resp.question.qtype fuel
            [] 0 (initRrs resp.answer) _ { request := 1 } [] out h
          obtain ⟨h1, h2, h3, h4, h5, h6, h7, h8, h9, h10, h11, h12⟩ := H
          refine ⟨h2, h3, h4, h5, ?_, ?_, ?_, ?_, ?_, ?_, h12, ?_, ?_⟩
          · simp [h6]
          · simpa using h7
          · simpa using h8
          · simpa using h9
          · simpa using h10
          · simpa using h11
          · intro _; simpa using h6
          · intro hs
            rcases h1 with h1 | h1 | h1 | h1 | h1 | h1 <;> rcases hs with hs | hs | hs <;>
              rw [h1] at hs <;> cases hs

/-- Whenever one of the three skip conditions holds, both `ServeDNS`
shapes write the response unchanged, issue no upstream call and touch
no counter. -/
theorem serveDNSWith_skip (initRrs : List RR → List RR) (ml : Int) (up : Nat → Option Msg)
    (wOk : Bool) (nr fuel : Nat) (resp : Msg) (out : Outcome)
    (hc : resp.question.qtype = typeCNAME ∨ resp.answer = [] ∨
      resp.answer.any (fun rr => rr.rrtype != typeCNAME) = true)
    (h : serveDNSWith initRrs ml up wOk false nr (some resp) fuel = some out) :
    out.written = some resp ∧ out.lookups = [] ∧ out.counters = {} ∧ out.lookupCnt = 0 := by
  simp only [serveDNSWith, Bool.false_eq_true, if_false] at h
  split at h
  · injection h with h
    subst h
    cases wOk <;> simp
  · split at h
    · injection h with h
      subst h
      cases wOk <;> simp
    · split at h
      · injection h with h
        subst h
        cases wOk <;> simp
      · exfalso
        rename_i hq he ha
        rcases hc with hc | hc | hc
        · exact hq (by simp [hc])
        · exact he (by simp [hc])
        · exact ha hc

/-! Helper lemmas about `findLastTarget`. -/

/-- A name with a mapping entry occurs among the mapping keys. -/
theorem lookupAssoc_mem_keys {m : List (String × String)} {x v : String}
    (h : lookupAssoc m x = some v) : x ∈ m.map Prod.fst := by
  unfold lookupAssoc at h
  obtain ⟨p, hp, hv⟩ := Option.map_eq_some'.mp h
  have hmem := List.mem_of_find?_eq_some hp
  have hkey := List.find?_some hp
  rw [List.mem_map]
  exact ⟨p, hmem, by simpa using hkey⟩

theorem followChain_ne_noRecords (m : List (String × String)) (s : String) (depth : Nat) :
    followChain m s depth ≠ Except.error FTErr.noCnameRecords := by
  induction s, depth using followChain.induct m with
  | case1 s depth hnone hd =>
    rw [followChain, hnone]
    simp [hd]
  | case2 s depth hnone hd =>
    rw [followChain, hnone]
    simp [hd]
  | case3 s depth t hsome hlen =>
    rw [followChain, hsome]
    simp [hlen]
  | case4 s depth t hsome hlen ih =>
    rw [followChain, hsome]
    simpa [hlen] using ih

theorem followChain_noFor_iff (m : List (String × String)) (s : String) (depth : Nat) :
    followChain m s depth = Except.error FTErr.noCnameForQname ↔
      depth = 0 ∧ lookupAssoc m s = none := by
  induction s, depth using followChain.induct m with
  | case1 s depth hnone hd =>
    rw [followChain, hnone]
    simp_all
  | case2 s depth hnone hd =>
    rw [followChain, hnone]
    simp_all
  | case3 s depth t hsome hlen =>
    rw [followChain, hsome]
    simp [hlen, hsome]
  | case4 s depth t hsome hlen ih =>
    rw [followChain, hsome]
    simp [hlen, hsome, ih]

theorem followChain_circular_iff (m : List (String × String)) (s : String) (depth : Nat)
    (hd : depth ≤ m.length) :
    followChain m s depth = Except.error FTErr.circularReference ↔
      (iterN m s (m.length + 1 - depth)).isSome = true := by
  induction s, depth using followChain.induct m with
  | case1 s depth hnone hd2 =>
    rw [followChain, hnone]
    have hx : m.length + 1 - depth = (m.length - depth) + 1 := by omega
    rw [hx]
    simp [iterN, hnone, hd2]
  | case2 s depth hnone hd2 =>
    rw [followChain, hnone]
    have hx : m.length + 1 - depth = (m.length - depth) + 1 := by omega
    rw [hx]
    simp [iterN, hnone, hd2]
  | case3 s depth t hsome hlen =>
    rw [followChain, hsome]
    have hx : m.length + 1 - depth = 1 := by omega
    rw [hx]
    simp [iterN, hsome, hlen]
  | case4 s depth t hsome hlen ih =>
    rw [followChain, hsome]
    have hx : m.length + 1 - depth = (m.length + 1 - (depth + 1)) + 1 := by omega
    rw [hx]
    simp only [iterN, hsome, dif_neg hlen]
    exact ih (by omega)

theorem followChain_ok_of_chain (m : List (String × String)) (Z : String)
    (hZ : lookupAssoc m Z = none) :
    ∀ (j : Nat) (s : String) (d : Nat) (nn : Nat → String),
      nn 0 = s → nn j = Z → (∀ i, i < j → lookupAssoc m (nn i) = some (nn (i + 1))) →
      d + j ≤ m.length → 1 ≤ d + j → followChain m s d = Except.ok Z := by
  intro j
  induction j with
  | zero =>
    intro s d nn h0 hj hstep hle h1
    have hs : s = Z := by rw [← h0, hj]
    subst hs
    rw [followChain, hZ]
    have : (d == 0) = false := by simpa using (by omega : d ≠ 0)
    simp [this]
  | succ j ih =>
    intro s d nn h0 hj hstep hstep2 h1
    have hs : lookupAssoc m s = some (nn 1) := by
      rw [← h0]
      exact hstep 0 (Nat.succ_pos j)
    rw [followChain, hs]
    have hnl : ¬ (m.length < d + 1) := by omega
    simp only [hnl, dite_false]
    exact ih (nn 1) (d + 1) (fun i => nn (i + 1)) rfl hj
      (fun i hi => hstep (i + 1) (by omega)) (by omega) (by omega)

/-! Per-claim theorems. -/

/-- C1.  At the spec's own example — answer `[CNAME a. -> b.]`, upstream
lookup of `b.` returning `[A b. 1.2.3.4]` — the loop-based `ServeDNS` of
src/unnamed/part_000 commits the original answer followed by the
gathered records, as the claim states; the goto-based `ServeDNS` of
src/finalize.go instead writes the original answer unchanged and issues
no upstream call at all, because its working copy
`rrs := make([]dns.RR, 0, len(response.Answer))` has length zero, so
`copy` copies nothing and the initial `findLastTarget` fails. -/
theorem claim1_success_commit_example :
    serveDNS_loop 10 upC1 true false 0 (some respC1) 5 =
      some { written := some { respC1 with
               answer := [⟨"a.", typeCNAME, "b.", ""⟩, ⟨"b.", typeA, "", "1.2.3.4"⟩] },
             rcode := RcodeSuccess, isErr := false, counters := { request := 1 },
             lookups := [("b.", typeA)], lookupCnt := 1, exit := Exit.success } ∧
    serveDNS_goto 10 upC1 true false 0 (some respC1) 5 =
      some { written := some respC1, rcode := RcodeSuccess, isErr := false,
             counters := { request := 1 }, lookups := [], lookupCnt := 0,
             exit := Exit.chainError } := by
  constructor <;>
    simp [serveDNS_loop, serveDNS_goto, serveDNSWith, resolveLoop, writeResponse,
      findLastTarget, buildNameToTarget, insertAssoc, lookupAssoc, followChain,
      respC1, upC1, typeA, typeCNAME, RcodeSuccess]

/-- C2.  The two `ServeDNS` variants are not behaviourally equivalent:
on the captured response `[CNAME x. -> y.]` with an upstream answering
`[A y. 5.6.7.8]`, the loop variant writes the flattened answer while
the goto variant (whose working copy is empty, see C1) writes the
original response unchanged. -/
theorem claim2_variants_diverge :
    serveDNS_loop 10 upC2 true false 0 (some respC2) 5 ≠
      serveDNS_goto 10 upC2 true false 0 (some respC2) 5 ∧
    (serveDNS_loop 10 upC2 true false 0 (some respC2) 5).map (fun o => o.written) =
      some (some { respC2 with
        answer := [⟨"x.", typeCNAME, "y.", ""⟩, ⟨"y.", typeA, "", "5.6.7.8"⟩] }) ∧
    (serveDNS_goto 10 upC2 true false 0 (some respC2) 5).map (fun o => o.written) =
      some (some respC2) := by
  refine ⟨?_, ?_, ?_⟩ <;>
    simp [serveDNS_loop, serveDNS_goto, serveDNSWith, resolveLoop, writeResponse,
      findLastTarget, buildNameToTarget, insertAssoc, lookupAssoc, followChain,
      respC2, upC2, typeA, typeCNAME, RcodeSuccess]

/-- C3 counterexample.  The record set `[CNAME a. -> b., CNAME a. -> d.]`
contains the unbroken 1-hop alias chain `a. -> b.` and no alias record
for owner `b.`, yet `findLastTarget` returns `d.`, not `b.`: the Go map
keeps only the last alias record per owner name. -/
theorem claim3_duplicate_owner_counterexample :
    (∃ rr ∈ rrsC3cex, rr.rrtype = typeCNAME ∧ rr.name = "a." ∧ rr.target = "b.") ∧
    (∀ rr ∈ rrsC3cex, rr.rrtype = typeCNAME → rr.name ≠ "b.") ∧
    findLastTarget rrsC3cex "a." = Except.ok "d." ∧
    findLastTarget rrsC3cex "a." ≠ Except.ok "b." := by
  refine ⟨by decide, by decide, ?_, ?_⟩ <;>
    simp [findLastTarget, buildNameToTarget, insertAssoc, lookupAssoc, followChain,
      rrsC3cex, typeCNAME]

/-- C3 (amended).  If the owner-to-target mapping that `findLastTarget`
builds from the record set (last alias record per owner wins) contains
an unbroken chain of `k ≥ 1` edges from `A` to `Z` and no entry for
`Z`, then `findLastTarget` applied to the record set and `A` returns
`Z` with no error. -/
theorem claim3_chain_locator (rrs : List RR) (A Z : String) (k : Nat) (nn : Nat → String)
    (hk : 1 ≤ k) (h0 : nn 0 = A) (hZ : nn k = Z)
    (hstep : ∀ i, i < k → lookupAssoc (buildNameToTarget rrs) (nn i) = some (nn (i + 1)))
    (hterm : lookupAssoc (buildNameToTarget rrs) Z = none) :
    findLastTarget rrs A = Except.ok Z := by
  have hne : ∀ i, i < k → nn i ≠ Z := by
    intro i hi hiz
    have hx := hstep i hi
    rw [hiz, hterm] at hx
    cases hx
  have hshift : ∀ t i j, i + t ≤ k → j + t ≤ k → nn i = nn j → nn (i + t) = nn (j + t) := by
    intro t
    induction t with
    | zero => intro i j _ _ hij; simpa using hij
    | succ t iht =>
      intro i j hit hjt hij
      have h1 : nn (i + t) = nn (j + t) := iht i j (by omega) (by omega) hij
      have si := hstep (i + t) (by omega)
      have sj := hstep (j + t) (by omega)
      rw [h1, sj] at si
      have h2 : nn (j + t + 1) = nn (i + t + 1) := by
        simpa using si
      have e1 : i + (t + 1) = i + t + 1 := by omega
      have e2 : j + (t + 1) = j + t + 1 := by omega
      rw [e1, e2, h2]
  have hinj : ∀ i j, i < k → j < k → nn i = nn j → i = j := by
    intro i j hi hj hij
    rcases Nat.lt_trichotomy i j with hlt | heq | hlt
    · exfalso
      have hx := hshift (k - j) i j (by omega) (by omega) hij
      rw [show j + (k - j) = k from by omega, hZ] at hx
      exact hne (i + (k - j)) (by omega) hx
    · exact heq
    · exfalso
      have hx := hshift (k - i) j i (by omega) (by omega) hij.symm
      rw [show i + (k - i) = k from by omega, hZ] at hx
      exact hne (j + (k - i)) (by omega) hx
  have hlen : k ≤ (buildNameToTarget rrs).length := by
    have hnodup : ((List.range k).map nn).Nodup := by
      refine List.Nodup.map_on ?_ (List.nodup_range k)
      intro x hx y hy hxy
      rw [List.mem_range] at hx hy
      exact hinj x y hx hy hxy
    have hsub : (List.range k).map nn ⊆ (buildNameToTarget rrs).map Prod.fst := by
      intro x hx
      rw [List.mem_map] at hx
      obtain ⟨i, hi, rfl⟩ := hx
      rw [List.mem_range] at hi
      exact lookupAssoc_mem_keys (hstep i hi)
    have hsp := (List.subperm_of_subset hnodup hsub).length_le
    simpa using hsp
  have hnz : ((buildNameToTarget rrs).length == 0) = false := by
    simpa using (by omega : (buildNameToTarget rrs).length ≠ 0)
  unfold findLastTarget
  simp only [hnz, Bool.false_eq_true, if_false]
  exact followChain_ok_of_chain (buildNameToTarget rrs) Z hterm k A 0 nn h0 hZ hstep
    (by omega) (by omega)

/-- C3 witness: the 2-hop chain `a. -> b. -> c.` with no alias record
for `c.`, resolved through `claim3_chain_locator`. -/
theorem claim3_chain_locator_witness : findLastTarget rrsC3w "a." = Except.ok "c." :=
  claim3_chain_locator rrsC3w "a." "c." 2 nnC3 (by decide) rfl rfl
    (by decide) (by decide)

/-- C4.  `findLastTarget` (a total function of the model, mirroring the
Go loop whose `depth` counter enforces termination) returns an error in
exactly three situations: the derived alias mapping is empty; the
mapping is non-empty but the starting name has no entry; or, the
mapping being non-empty, `length + 1` consecutive hops from the
starting name all succeed, which the code reports as a circular
reference instead of looping. -/
theorem claim4_locator_error_characterization (rrs : List RR) (qname : String) (e : FTErr) :
    findLastTarget rrs qname = Except.error e ↔
      (e = FTErr.noCnameRecords ∧ buildNameToTarget rrs = []) ∨
      (e = FTErr.noCnameForQname ∧ buildNameToTarget rrs ≠ [] ∧
        lookupAssoc (buildNameToTarget rrs) qname = none) ∨
      (e = FTErr.circularReference ∧ buildNameToTarget rrs ≠ [] ∧
        (iterN (buildNameToTarget rrs) qname ((buildNameToTarget rrs).length + 1)).isSome
          = true) := by
  unfold findLastTarget
  by_cases hm : buildNameToTarget rrs = []
  · simp [hm]
    constructor
    · intro hx; exact hx.symm
    · intro hx; exact hx.symm
  · have hnz : ((buildNameToTarget rrs).length == 0) = false := by
      have : (buildNameToTarget rrs).length ≠ 0 := by
        simpa [List.length_eq_zero] using hm
      simpa using this
    simp only [hnz, Bool.false_eq_true, if_false]
    cases e with
    | noCnameRecords =>
      simp [hm, followChain_ne_noRecords (buildNameToTarget rrs) qname 0]
    | noCnameForQname =>
      have hiff := followChain_noFor_iff (buildNameToTarget rrs) qname 0
      simp [hm, hiff]
    | circularReference =>
      have hiff := followChain_circular_iff (buildNameToTarget rrs) qname 0 (Nat.zero_le _)
      simp only [Nat.sub_zero] at hiff
      simp [hm, hiff]

/-- C5.  In the loop-based `ServeDNS`: whenever the budget abort fires
(exit `maxLookup`) the budget was positive, the max-lookup-reached
counter ends at exactly 1 and the original response is the written
message; when it does not fire the counter stays 0 (in particular a
non-positive budget never triggers it); and on the spec's example —
budget 1, a chain needing two hops — the run aborts with the original
`[CNAME a. -> b.]` answer. -/
theorem claim5_budget_abort :
    (∀ (ml : Int) (up : Nat → Option Msg) (wOk : Bool) (resp : Msg) (fuel : Nat) (out : Outcome),
      serveDNS_loop ml up wOk false 0 (some resp) fuel = some out →
      (out.exit = Exit.maxLookup →
        0 < ml ∧ out.counters.maxLookupReached = 1 ∧ out.written = some resp) ∧
      (out.exit ≠ Exit.maxLookup → out.counters.maxLookupReached = 0)) ∧
    serveDNS_loop 1 upC5 true false 0 (some respC5) 5 = some outC5 := by
  constructor
  · intro ml up wOk resp fuel out h
    have H := serveDNSWith_cases (fun ans => ans) ml up wOk 0 fuel resp out h
    obtain ⟨h1, h2, h3, h4, h5, h6, h7, h8, h9, h10, h11, h12, h13⟩ := H
    constructor
    · intro he
      refine ⟨?_, ?_, ?_⟩
      · by_contra hml
        exact h11 (by omega) he
      · simpa [he] using h6
      · exact h1 (by simp [he])
    · intro he
      simpa [he] using h6
  · simp [serveDNS_loop, serveDNSWith, resolveLoop, writeResponse, findLastTarget,
      buildNameToTarget, insertAssoc, lookupAssoc, followChain, respC5, upC5, outC5,
      typeA, typeCNAME, RcodeSuccess]

/-- C5 witness: `claim5_budget_abort` applied to the budget-1 run. -/
theorem claim5_budget_abort_witness :
    (outC5.exit = Exit.maxLookup →
      0 < (1 : Int) ∧ outC5.counters.maxLookupReached = 1 ∧ outC5.written = some respC5) ∧
    (outC5.exit ≠ Exit.maxLookup → outC5.counters.maxLookupReached = 0) :=
  claim5_budget_abort.1 1 upC5 true respC5 5 outC5 claim5_budget_abort.2

/-- C6.  In the loop-based `ServeDNS`, every recoverable failure
(chain-computation error, budget abort, cycle abort, upstream error,
dangling alias) writes the original captured response unchanged,
increments the request counter plus exactly the matching failure
counter (none for a chain-computation error), and — when the write
succeeds — still returns the success code with a nil error; a
server-failure return or a non-nil error can only arise from a missing
pipeline answer or a failed write. -/
theorem claim6_graceful_degradation :
    (∀ (ml : Int) (up : Nat → Option Msg) (wOk : Bool) (resp : Msg) (fuel : Nat) (out : Outcome),
      serveDNS_loop ml up wOk false 0 (some resp) fuel = some out →
      (out.exit = Exit.chainError ∨ out.exit = Exit.maxLookup ∨ out.exit = Exit.circular ∨
        out.exit = Exit.upstreamErr ∨ out.exit = Exit.dangling) →
      out.written = some resp ∧
      out.counters.request = 1 ∧
      (out.counters.maxLookupReached = if out.exit = Exit.maxLookup then 1 else 0) ∧
      (out.counters.circularReference = if out.exit = Exit.circular then 1 else 0) ∧
      (out.counters.danglingCName = if out.exit = Exit.dangling then 1 else 0) ∧
      (out.counters.upstreamError = if out.exit = Exit.upstreamErr then 1 else 0) ∧
      (wOk = true → out.rcode = RcodeSuccess ∧ out.isErr = false)) ∧
    (∀ (ml : Int) (up : Nat → Option Msg) (wOk : Bool) (nr : Nat) (resp? : Option Msg)
        (fuel : Nat) (out : Outcome),
      serveDNS_loop ml up wOk false nr resp? fuel = some out →
      (out.rcode = RcodeServerFailure ∨ out.isErr = true) →
      resp? = none ∨ wOk = false) := by
  constructor
  · intro ml up wOk resp fuel out h hfail
    have H := serveDNSWith_cases (fun ans => ans) ml up wOk 0 fuel resp out h
    obtain ⟨h1, h2, h3, h4, h5, h6, h7, h8, h9, h10, h11, h12, h13⟩ := H
    have hns : out.exit ≠ Exit.success := by
      rcases hfail with he | he | he | he | he <;> simp [he]
    exact ⟨h1 hns, h12 hfail, h6, h7, h8, h9, h3⟩
  · intro ml up wOk nr resp? fuel out h hfail
    cases resp? with
    | none => exact Or.inl rfl
    | some resp =>
      right
      cases wOk with
      | true =>
        have H := serveDNSWith_cases (fun ans => ans) ml up true nr fuel resp out h
        have h3 := H.2.2.1 rfl
        simp [h3.1, h3.2, RcodeSuccess, RcodeServerFailure] at hfail
      | false => rfl

/-- C6 witness: `claim6_graceful_degradation` applied to the
dangling-alias run (upstream answers with zero records). -/
theorem claim6_graceful_degradation_witness :
    outC6.written = some respC6 ∧
    outC6.counters.request = 1 ∧
    (outC6.counters.maxLookupReached = if outC6.exit = Exit.maxLookup then 1 else 0) ∧
    (outC6.counters.circularReference = if outC6.exit = Exit.circular then 1 else 0) ∧
    (outC6.counters.danglingCName = if outC6.exit = Exit.dangling then 1 else 0) ∧
    (outC6.counters.upstreamError = if outC6.exit = Exit.upstreamErr then 1 else 0) ∧
    (true = true → outC6.rcode = RcodeSuccess ∧ outC6.isErr = false) :=
  claim6_graceful_degradation.1 10 upC6 true respC6 5 outC6
    (by simp [serveDNS_loop, serveDNSWith, resolveLoop, writeResponse, findLastTarget,
      buildNameToTarget, insertAssoc, lookupAssoc, followChain, respC6, upC6, outC6,
      typeA, typeCNAME, RcodeSuccess])
    (by simp [outC6])

/-- C7.  When the question type is the alias type, or the answer
section is empty, or every answer record is of a non-alias type, both
`ServeDNS` variants write the response unchanged, issue no upstream
call, and increment no counter at all (not even the request counter,
which the code only increments after the skip checks). -/
theorem claim7_skip_conditions (ml : Int) (up : Nat → Option Msg) (wOk : Bool)
    (nr fuel : Nat) (resp : Msg) (out1 out2 : Outcome)
    (hskip : resp.question.qtype = typeCNAME ∨ resp.answer = [] ∨
      ∀ rr ∈ resp.answer, rr.rrtype ≠ typeCNAME)
    (h1 : serveDNS_loop ml up wOk false nr (some resp) fuel = some out1)
    (h2 : serveDNS_goto ml up wOk false nr (some resp) fuel = some out2) :
    out1.written = some resp ∧ out1.lookups = [] ∧ out1.counters = {} ∧
    out2.written = some resp ∧ out2.lookups = [] ∧ out2.counters = {} := by
  have hc : resp.question.qtype = typeCNAME ∨ resp.answer = [] ∨
      resp.answer.any (fun rr => rr.rrtype != typeCNAME) = true := by
    rcases hskip with h | h | h
    · exact Or.inl h
    · exact Or.inr (Or.inl h)
    · by_cases hA : resp.answer = []
      · exact Or.inr (Or.inl hA)
      · refine Or.inr (Or.inr ?_)
        obtain ⟨rr, hmem⟩ := List.exists_mem_of_ne_nil resp.answer hA
        rw [List.any_eq_true]
        exact ⟨rr, hmem, by simpa using h rr hmem⟩
  have H1 := serveDNSWith_skip (fun ans => ans) ml up wOk nr fuel resp out1 hc h1
  have H2 := serveDNSWith_skip (fun _ => []) ml up wOk nr fuel resp out2 hc h2
  exact ⟨H1.1, H1.2.1, H1.2.2.1, H2.1, H2.2.1, H2.2.2.1⟩

/-- C7 witness: a CNAME-type question is skipped by both variants. -/
theorem claim7_skip_conditions_witness :
    outC7.written = some respC7 ∧ outC7.lookups = [] ∧ outC7.counters = {} ∧
    outC7.written = some respC7 ∧ outC7.lookups = [] ∧ outC7.counters = {} :=
  claim7_skip_conditions 10 (fun _ => none) true 0 5 respC7 outC7 outC7
    (Or.inl rfl)
    (by simp [serveDNS_loop, serveDNSWith, writeResponse, respC7, outC7, typeCNAME,
      RcodeSuccess])
    (by simp [serveDNS_goto, serveDNSWith, writeResponse, respC7, outC7, typeCNAME,
      RcodeSuccess])

/-- C8 counterexample.  On the cycle `a. -> b. -> a.` spread over two
upstream answers, the loop-based `ServeDNS` ends with `lookupCnt = 3`
after only two upstream call attempts: the code increments the counter
before the visited-set check, so the cycle-detected abort iteration
increases the counter without attempting a call, contradicting the
claim. -/
theorem claim8_cycle_abort_counterexample :
    (serveDNS_loop 10 upC8 true false 0 (some respC8) 6).map
      (fun o => (o.lookupCnt, o.lookups.length, o.exit)) =
      some (3, 2, Exit.circular) := by
  simp [serveDNS_loop, serveDNSWith, resolveLoop, writeResponse, findLastTarget,
    buildNameToTarget, insertAssoc, lookupAssoc, followChain, respC8, upC8,
    typeA, typeCNAME, RcodeSuccess]

/-- C8 (amended).  The final lookup counter equals the number of
upstream call attempts, plus exactly one extra increment if and only if
the run ended through the cycle-detected abort (whose iteration
increments the counter before the visited-set check and attempts no
call). -/
theorem claim8_lookup_counter (ml : Int) (up : Nat → Option Msg) (wOk : Bool) (nr : Nat)
    (resp? : Option Msg) (fuel : Nat) (out : Outcome)
    (h : serveDNS_loop ml up wOk false nr resp? fuel = some out) :
    out.lookupCnt = out.lookups.length + if out.exit = Exit.circular then 1 else 0 := by
  cases resp? with
  | none =>
    simp only [serveDNS_loop, serveDNSWith, Bool.false_eq_true, if_false] at h
    injection h with h
    subst h
    simp
  | some resp =>
    exact (serveDNSWith_cases (fun ans => ans) ml up wOk nr fuel resp out
      h).2.2.2.2.2.2.2.2.2.1

/-- C8 witness: the amended count law evaluated on the cycle run. -/
theorem claim8_lookup_counter_witness :
    outC8.lookupCnt = outC8.lookups.length + if outC8.exit = Exit.circular then 1 else 0 :=
  claim8_lookup_counter 10 upC8 true 0 (some respC8) 6 outC8
    (by simp [serveDNS_loop, serveDNSWith, resolveLoop, writeResponse, findLastTarget,
      buildNameToTarget, insertAssoc, lookupAssoc, followChain, respC8, upC8, outC8,
      typeA, typeCNAME, RcodeSuccess])

/-- C9.  The configuration parser rejects a supplied non-positive
`max_lookup` value with an error at startup, accepts any positive
integer value, and leaves the default budget of 10 when the parameter
is absent (no block, or a bare directive without arguments). -/
theorem claim9_config_parsing :
    (∀ (s : String) (n : Int), atoi s = some n → n ≤ 0 →
      parse [["max_lookup", s]] = Except.error ParseErr.nonPositive) ∧
    (∀ (s : String) (n : Int), atoi s = some n → 0 < n →
      parse [["max_lookup", s]] = Except.ok ⟨n⟩) ∧
    parse [] = Except.ok ⟨10⟩ ∧
    parse [[]] = Except.ok ⟨10⟩ := by
  have hfold : equalFold "max_lookup" "max_lookup" = true := by decide
  refine ⟨?_, ?_, ?_, ?_⟩
  · intro s n h hle
    simp [parse, parseBlocks, hfold, h, hle]
  · intro s n h hpos
    simp [parse, parseBlocks, hfold, h, newFinalize, show ¬ (n ≤ 0) from by omega]
  · rfl
  · rfl

/-- C9 witness: `max_lookup 7` parses to a budget of 7. -/
theorem claim9_config_parsing_witness :
    parse [["max_lookup", "7"]] = Except.ok ⟨7⟩ :=
  claim9_config_parsing.2.1 "7" 7 (by decide) (by decide)

/-- C10.  A single non-alias record in the answer section suffices to
skip resolution in both `ServeDNS` variants — even when unresolved
alias records are also present — because the skip scan fires on the
first non-CNAME record it meets (and a CNAME-type question skips
regardless). -/
theorem claim10_single_nonalias_skips (ml : Int) (up : Nat → Option Msg) (wOk : Bool)
    (nr fuel : Nat) (resp : Msg) (rr : RR) (out1 out2 : Outcome)
    (hmem : rr ∈ resp.answer) (hrr : rr.rrtype ≠ typeCNAME)
    (h1 : serveDNS_loop ml up wOk false nr (some resp) fuel = some out1)
    (h2 : serveDNS_goto ml up wOk false nr (some resp) fuel = some out2) :
    out1.written = some resp ∧ out1.lookups = [] ∧ out1.counters = {} ∧
    out2.written = some resp ∧ out2.lookups = [] ∧ out2.counters = {} := by
  have hc : resp.question.qtype = typeCNAME ∨ resp.answer = [] ∨
      resp.answer.any (fun r => r.rrtype != typeCNAME) = true := by
    refine Or.inr (Or.inr ?_)
    rw [List.any_eq_true]
    exact ⟨rr, hmem, by simpa using hrr⟩
  have H1 := serveDNSWith_skip (fun ans => ans) ml up wOk nr fuel resp out1 hc h1
  have H2 := serveDNSWith_skip (fun _ => []) ml up wOk nr fuel resp out2 hc h2
  exact ⟨H1.1, H1.2.1, H1.2.2.1, H2.1, H2.2.1, H2.2.2.1⟩

/-- C10 witness: an answer holding both an unresolved CNAME and a
terminal A record is skipped by both variants. -/
theorem claim10_single_nonalias_skips_witness :
    outC10.written = some respC10 ∧ outC10.lookups = [] ∧ outC10.counters = {} ∧
    outC10.written = some respC10 ∧ outC10.lookups = [] ∧ outC10.counters = {} :=
  claim10_single_nonalias_skips 10 (fun _ => none) true 0 5 respC10 rrC10 outC10 outC10
    (by decide) (by decide)
    (by simp [serveDNS_loop, serveDNSWith, writeResponse, respC10, rrC10, outC10,
      typeA, typeCNAME, RcodeSuccess])
    (by simp [serveDNS_goto, serveDNSWith, writeResponse, respC10, rrC10, outC10,
      typeA, typeCNAME, RcodeSuccess])

end CorednsFinalizeCname
